import Mathlib

/-!
Shallow embedding of the celestial-body position/orientation/photometry core
of the Stellarium `Planet` module (src/core/modules/Planet.hpp).

Numbers: the C++ code computes with `double`/`float`; we embed them in a
linear ordered field `K` (instantiated with `ℚ` for concrete evaluation and
with `ℝ` where properties of `cos`, `arccos`, `sqrt` or `logb` matter).
Transcendental functions and the constant π are passed as explicit
parameters so the definitions stay computable.

Function bodies that are visible in the header (`getSiderealDay`,
`getPolarRadius`, `getEquatorialRadius`, `getOneMinusOblateness`,
`getHeliocentricEclipticPos`'s delegation) are translated from the source;
bodies living in `Planet.cpp` / `SolarSystem.cpp` (absent from the
repository snapshot) are modelled from the specification, as marked in the
individual doc comments.
-/

variable {K : Type} [LinearOrderedField K] [FloorRing K]

/-- Rotational elements of a planetary body, mirroring class
`RotationElements` of Planet.hpp: legacy fields (`period` in earth days,
`offset` in degrees, `epoch` as JDE, `obliquity` and `ascendingNode` in
radians, `siderealPeriod` in earth days) and the modern ICRF fields
(`useICRF` switch, pole `ra0`,`ra1`,`de0`,`de1` and prime-meridian
`W0` [rad], `W1` [rad/day]). -/
structure RotationElements (K : Type) where
  period : K
  offset : K
  epoch : K
  obliquity : K
  ascendingNode : K
  siderealPeriod : K
  useICRF : Bool
  ra0 : K
  ra1 : K
  de0 : K
  de1 : K
  W0 : K
  W1 : K

/-- Default-constructed `RotationElements`, mirroring the C++ default
constructor (period 1, epoch J2000 = 2451545, everything else zero / false). -/
def RotationElements.default : RotationElements K :=
  { period := 1, offset := 0, epoch := 2451545, obliquity := 0,
    ascendingNode := 0, siderealPeriod := 0, useICRF := false,
    ra0 := 0, ra1 := 0, de0 := 0, de1 := 0, W0 := 0, W1 := 0 }

/-- `Planet::getSiderealDay`, translated from the inline body in
Planet.hpp: `if (re.W1) return 2.*M_PI/re.W1; else return re.period;`.
`pi` stands for the C++ constant `M_PI`. -/
def getSiderealDay (pi : K) (re : RotationElements K) : K :=
  if re.W1 ≠ 0 then 2 * pi / re.W1 else re.period

/-- Physical size parameters of a `Planet` (fields `equatorialRadius` and
`oneMinusOblateness` of Planet.hpp). -/
structure PlanetShape (K : Type) where
  equatorialRadius : K
  oneMinusOblateness : K

/-- `Planet::getEquatorialRadius`, translated from the inline body. -/
def getEquatorialRadius (p : PlanetShape K) : K := p.equatorialRadius

/-- `Planet::getOneMinusOblateness`, translated from the inline body. -/
def getOneMinusOblateness (p : PlanetShape K) : K := p.oneMinusOblateness

/-- `Planet::getPolarRadius`, translated from the inline body:
`equatorialRadius*oneMinusOblateness`. -/
def getPolarRadius (p : PlanetShape K) : K :=
  p.equatorialRadius * p.oneMinusOblateness

/-- Modelled from the spec: the constructor conversion (in the absent
Planet.cpp) of the `oblateness` parameter into the stored
`oneMinusOblateness = (polar radius)/(equatorial radius)` field. -/
def mkPlanetShape (equatorialRadius oblateness : K) : PlanetShape K :=
  { equatorialRadius := equatorialRadius,
    oneMinusOblateness := 1 - oblateness }

/-- Normalization of an angle in degrees to the interval [0, 360). -/
def norm360 (x : K) : K := x - 360 * (Int.floor (x / 360) : K)

theorem norm360_nonneg (x : K) : 0 ≤ norm360 x := by
  have h : (Int.floor (x / 360) : K) ≤ x / 360 := Int.floor_le (x / 360)
  have h360 : (0:K) < 360 := by norm_num
  have h2 : 360 * (Int.floor (x / 360) : K) ≤ 360 * (x / 360) :=
    mul_le_mul_of_nonneg_left h (le_of_lt h360)
  have h3 : 360 * (x / 360) = x := by field_simp
  unfold norm360
  linarith

theorem norm360_lt (x : K) : norm360 x < 360 := by
  have h : x / 360 < (Int.floor (x / 360) : K) + 1 := Int.lt_floor_add_one (x / 360)
  have h360 : (0:K) < 360 := by norm_num
  have h2 : 360 * (x / 360) < 360 * ((Int.floor (x / 360) : K) + 1) :=
    mul_lt_mul_of_pos_left h h360
  have h3 : 360 * (x / 360) = x := by field_simp
  unfold norm360
  linarith

theorem norm360_add_360 (x : K) : norm360 (x + 360) = norm360 x := by
  unfold norm360
  have h : (x + 360) / 360 = x / 360 + 1 := by ring
  rw [h]
  have h2 : Int.floor (x / 360 + 1) = Int.floor (x / 360) + 1 := by
    exact_mod_cast Int.floor_add_int (x / 360) 1
  rw [h2]
  push_cast
  ring

theorem norm360_eq_self (x : K) (h0 : 0 ≤ x) (h1 : x < 360) : norm360 x = x := by
  unfold norm360
  have hf : Int.floor (x / 360) = 0 := by
    rw [Int.floor_eq_zero_iff]
    constructor
    · positivity
    · rw [div_lt_one (by norm_num : (0:K) < 360)]
      exact h1
  rw [hf]
  push_cast
  ring

/-- Modelled from the spec: the axis rotation angle (degrees, in [0,360))
determined by `Planet::computeTransMatrix` / stored in `Planet::axisRotation`
(body in the absent Planet.cpp). Legacy branch (`useICRF = false`):
`offset + 360·(JDE − epoch)/period` normalized to [0,360). ICRF branch
(`useICRF = true`): `W = W0 + (JDE − epoch)·W1` in radians, plus the
body-specific periodic correction term `corr` (zero for non-designated
bodies), converted to degrees and normalized to [0,360). `pi` stands for
the C++ constant `M_PI`. -/
def axisRotationAngle (pi : K) (re : RotationElements K) (jde corr : K) : K :=
  if re.useICRF then
    norm360 ((re.W0 + (jde - re.epoch) * re.W1 + corr) * (180 / pi))
  else
    norm360 (re.offset + 360 * (jde - re.epoch) / re.period)

/-- Rectangular 3D coordinates (the C++ `Vec3d`). -/
structure Vec3 (K : Type) where
  x : K
  y : K
  z : K

instance : Add (Vec3 K) := ⟨fun a b => ⟨a.x + b.x, a.y + b.y, a.z + b.z⟩⟩

instance : Sub (Vec3 K) := ⟨fun a b => ⟨a.x - b.x, a.y - b.y, a.z - b.z⟩⟩

theorem Vec3.add_def (a b : Vec3 K) :
    a + b = ⟨a.x + b.x, a.y + b.y, a.z + b.z⟩ := rfl

theorem Vec3.add_zero3 (v : Vec3 K) : v + ⟨0, 0, 0⟩ = v := by
  cases v
  simp [Vec3.add_def]

/-- Squared euclidean length of a `Vec3` (the C++ `Vec3d::lengthSquared`). -/
def lengthSquared (v : Vec3 K) : K := v.x ^ 2 + v.y ^ 2 + v.z ^ 2

/-- A body together with its chain of ancestors: `root` has no parent
(field `parent` of Planet.hpp is null), `sat` holds the body's
parent-relative `eclipticPos` and its parent. -/
inductive BodyChain (K : Type) where
  | root (eclipticPos : Vec3 K)
  | sat (eclipticPos : Vec3 K) (parent : BodyChain K)

/-- Modelled from the spec: `Planet::getHeliocentricEclipticPos` — the
header inline body delegates to `Planet::getHeliocentricPos(eclipticPos)`
whose body is in the absent Planet.cpp; per the spec it recursively sums
`eclipticPos` through the parent chain up to the root, and a root returns
its own `eclipticPos`. -/
def getHeliocentricEclipticPos : BodyChain K → Vec3 K
  | BodyChain.root p => p
  | BodyChain.sat p parent => p + getHeliocentricEclipticPos parent

/-- The list of parent-relative positions from the body up to the root. -/
def chainPositions : BodyChain K → List (Vec3 K)
  | BodyChain.root p => [p]
  | BodyChain.sat p parent => p :: chainPositions parent

/-- Componentwise sum of a list of vectors. -/
def vsum : List (Vec3 K) → Vec3 K
  | [] => ⟨0, 0, 0⟩
  | v :: vs => v + vsum vs

/-- Modelled from the spec: `Planet::getPhaseAngle` (body in the absent
Planet.cpp) — the angle at the body between the Sun and the observer,
law of cosines on the triangle (Sun, body, observer) with heliocentric
positions; `arccos` and `sqrt` are the C library functions, passed in. -/
def getPhaseAngle (arccos sqrt : K → K) (obsPos helioPos : Vec3 K) : K :=
  let observerRq := lengthSquared obsPos
  let planetRq := lengthSquared helioPos
  let observerPlanetRq := lengthSquared (obsPos - helioPos)
  arccos ((observerPlanetRq + planetRq - observerRq) /
          (2 * sqrt (observerPlanetRq * planetRq)))

/-- Modelled from the spec: `Planet::getElongation` (body in the absent
Planet.cpp) — the angle at the observer between the Sun and the body,
same triangle as `getPhaseAngle`, vertex at the observer. -/
def getElongation (arccos sqrt : K → K) (obsPos helioPos : Vec3 K) : K :=
  let observerRq := lengthSquared obsPos
  let planetRq := lengthSquared helioPos
  let observerPlanetRq := lengthSquared (obsPos - helioPos)
  arccos ((observerPlanetRq + observerRq - planetRq) /
          (2 * sqrt (observerPlanetRq * observerRq)))

/-- Modelled from the spec: `Planet::getPhase` (body in the absent
Planet.cpp) — the illuminated fraction `(1 + cos(phaseAngle))/2`. -/
def getPhase (cos arccos sqrt : K → K) (obsPos helioPos : Vec3 K) : K :=
  (1 + cos (getPhaseAngle arccos sqrt obsPos helioPos)) / 2

/-- Modelled from the spec: `Planet::getMeanOppositionMagnitude` (body in
the absent Planet.cpp) — `V(1,0) + 5·log10(a·(a−1))` with `a` the orbital
semi-major axis in AU, and the sentinel 100 when `a ≤ 1` (the header
documents: a return value of 100 signals an invalid result). -/
def getMeanOppositionMagnitude (log10 : K → K) (absoluteMagnitude a : K) : K :=
  if a ≤ 1 then 100 else absoluteMagnitude + 5 * log10 (a * (a - 1))

/-- The five correction families of `Planet::PlanetCorrections`
(Planet.hpp): Earth, Jupiter, Saturn, Uranus, Neptune. -/
inductive CorrFamily : Type where
  | earth
  | jupiter
  | saturn
  | uranus
  | neptune
deriving DecidableEq

/-- The `Planet::PlanetCorrections` cache of Planet.hpp: one JDE stamp per
family (`JDE_E`,`JDE_J`,`JDE_S`,`JDE_U`,`JDE_N`) and one snapshot of
named correction angles per family; `D` stands for a family's fixed set
of named angles (`E1..E13`, `Ja1..Ja5, J1..J8`, `S1..S6`, `U11..U16`,
`Na, N1..N7` — the numeric series live in the absent Planet.cpp). -/
structure PlanetCorrections (K D : Type) where
  JDE_E : K
  JDE_J : K
  JDE_S : K
  JDE_U : K
  JDE_N : K
  dataE : D
  dataJ : D
  dataS : D
  dataU : D
  dataN : D

/-- The cached JDE stamp of a family. -/
def stampOf {D : Type} (pc : PlanetCorrections K D) : CorrFamily → K
  | CorrFamily.earth => pc.JDE_E
  | CorrFamily.jupiter => pc.JDE_J
  | CorrFamily.saturn => pc.JDE_S
  | CorrFamily.uranus => pc.JDE_U
  | CorrFamily.neptune => pc.JDE_N

/-- The cached correction snapshot of a family. -/
def dataOf {D : Type} (pc : PlanetCorrections K D) : CorrFamily → D
  | CorrFamily.earth => pc.dataE
  | CorrFamily.jupiter => pc.dataJ
  | CorrFamily.saturn => pc.dataS
  | CorrFamily.uranus => pc.dataU
  | CorrFamily.neptune => pc.dataN

/-- Store a freshly computed snapshot and its JDE stamp for one family. -/
def setFamily {D : Type} (pc : PlanetCorrections K D) :
    CorrFamily → K → D → PlanetCorrections K D
  | CorrFamily.earth, jde, d => { pc with JDE_E := jde, dataE := d }
  | CorrFamily.jupiter, jde, d => { pc with JDE_J := jde, dataJ := d }
  | CorrFamily.saturn, jde, d => { pc with JDE_S := jde, dataS := d }
  | CorrFamily.uranus, jde, d => { pc with JDE_U := jde, dataU := d }
  | CorrFamily.neptune, jde, d => { pc with JDE_N := jde, dataN := d }

/-- Modelled from the spec: the memoized lookup discipline of
`Planet::updatePlanetCorrections` (body in the absent Planet.cpp):
a lookup for family `fam` at time `jde` recomputes the snapshot (via the
family's trigonometric series, abstracted as `compute`) only when the
family's cached JDE stamp differs from `jde`, otherwise it returns the
cached snapshot unchanged. The `Nat` component counts how many times the
series was recomputed by this lookup (0 or 1). -/
def getCorrections {D : Type} (compute : CorrFamily → K → D)
    (pc : PlanetCorrections K D) (fam : CorrFamily) (jde : K) :
    PlanetCorrections K D × D × Nat :=
  if stampOf pc fam = jde then (pc, dataOf pc fam, 0)
  else (setFamily pc fam jde (compute fam jde), compute fam jde, 1)

theorem stampOf_setFamily {D : Type} (pc : PlanetCorrections K D)
    (fam : CorrFamily) (jde : K) (d : D) :
    stampOf (setFamily pc fam jde d) fam = jde := by
  cases fam <;> rfl

theorem dataOf_setFamily {D : Type} (pc : PlanetCorrections K D)
    (fam : CorrFamily) (jde : K) (d : D) :
    dataOf (setFamily pc fam jde d) fam = d := by
  cases fam <;> rfl

/-- The position cache of a `Planet` (fields `eclipticPos`,
`eclipticVelocity`, `lastJDE` of Planet.hpp). -/
structure PositionState (K : Type) where
  eclipticPos : Vec3 K
  eclipticVelocity : Vec3 K
  lastJDE : K

/-- Modelled from the spec: `Planet::computePosition(dateJDE)` (body in
the absent Planet.cpp): when `dateJDE` equals the cached `lastJDE` it is
a no-op; otherwise the orbit position provider `coordFunc` is invoked,
its position/velocity result is stored and `lastJDE` is set to `dateJDE`.
The `Nat` component counts provider invocations (0 or 1). -/
def computePosition (coordFunc : K → Vec3 K × Vec3 K)
    (st : PositionState K) (dateJDE : K) : PositionState K × Nat :=
  if dateJDE = st.lastJDE then (st, 0)
  else ({ eclipticPos := (coordFunc dateJDE).1,
          eclipticVelocity := (coordFunc dateJDE).2,
          lastJDE := dateJDE }, 1)

/-- Modelled from the spec: the catalog loader's construction of
`RotationElements` when the ICRF keys `rot_pole_...` are present
(`SolarSystem.cpp::loadPlanets`, absent from the repository snapshot):
`useICRF` is set, `offset` receives `W0` [degrees], `period` is derived
from `W1` [degrees/day] as `360/W1` days, and the `W0`/`W1` fields store
the same quantities converted to radians; obliquity and ascendingNode are
the values transformed on the fly from the pole (ra, de), passed through
here as `obl`/`node`. -/
def loadICRFElements (pi W0deg W1deg ra0 ra1 de0 de1 epoch obl node
    siderealPeriod : K) : RotationElements K :=
  { period := 360 / W1deg
  , offset := W0deg
  , epoch := epoch
  , obliquity := obl
  , ascendingNode := node
  , siderealPeriod := siderealPeriod
  , useICRF := true
  , ra0 := ra0
  , ra1 := ra1
  , de0 := de0
  , de1 := de1
  , W0 := W0deg * (pi / 180)
  , W1 := W1deg * (pi / 180) }

/-- A concrete legacy body used in the scenario of the spec:
`period = 24` days, `offset = 0`, `epoch = J2000`, `useICRF = false`. -/
def scenarioRE : RotationElements K :=
  { RotationElements.default with period := 24, offset := 0, epoch := 2451545 }

/-- A concrete ICRF-style body with `W1 = 2` rad/day. -/
def sampleW1RE : RotationElements K :=
  { RotationElements.default with useICRF := true, W0 := 1, W1 := 2 }

/-- The scenario tree of the spec: Sun (root, `eclipticPos = 0`) → Earth
(`eclipticPos = (1,0,0)`) → Moon (`eclipticPos = (0,0.0026,0)`). -/
def moonChain : BodyChain K :=
  BodyChain.sat ⟨0, 0.0026, 0⟩ (BodyChain.sat ⟨1, 0, 0⟩ (BodyChain.root ⟨0, 0, 0⟩))

/-- Claim C1: for every Planet, `getSiderealDay()` returns `2π/W1` (in
days) when the rotation element `W1` is nonzero, and returns the stored
`period` field when `W1` is zero; the division by `W1` happens only in
the `W1 ≠ 0` branch. -/
theorem claim_C1_getSiderealDay (pi : K) (re : RotationElements K) :
    (re.W1 ≠ 0 → getSiderealDay pi re = 2 * pi / re.W1) ∧
    (re.W1 = 0 → getSiderealDay pi re = re.period) := by
  constructor
  · intro h
    simp [getSiderealDay, h]
  · intro h
    simp [getSiderealDay, h]

/-- Witness for claim C1 at two concrete bodies: one with `W1 = 2`
(ICRF-style) and one with `W1 = 0` (legacy, `period = 24`). -/
theorem claim_C1_witness :
    getSiderealDay (3:ℚ) sampleW1RE = 2 * 3 / 2 ∧
    getSiderealDay (3:ℚ) scenarioRE = 24 :=
  ⟨(claim_C1_getSiderealDay 3 sampleW1RE).1 (by norm_num [sampleW1RE, RotationElements.default]),
   (claim_C1_getSiderealDay 3 scenarioRE).2 (by norm_num [scenarioRE, RotationElements.default])⟩

/-- Claim C10: for every Planet, `getPolarRadius()` equals
`getEquatorialRadius()` multiplied by `getOneMinusOblateness()`, i.e. the
polar radius is the equatorial radius scaled by `1 − oblateness`;
this holds for every `PlanetShape`, independent of any rotation model. -/
theorem claim_C10_getPolarRadius :
    (∀ p : PlanetShape K,
      getPolarRadius p = getEquatorialRadius p * getOneMinusOblateness p) ∧
    (∀ r f : K, getPolarRadius (mkPlanetShape r f) = r * (1 - f)) := by
  constructor
  · intro p
    rfl
  · intro r f
    rfl

/-- Claim C3: for a body with `useICRF = false` the axis rotation angle at
time JDE equals `offset + 360·(JDE − epoch)/period` normalized to
[0, 360); and the scenario body with `period = 24` days, `offset = 0`,
`epoch = J2000`, queried at `JDE = J2000 + 12`, has axis rotation exactly
180 degrees. -/
theorem claim_C3_axisRotationLegacy :
    (∀ (pi corr : K) (re : RotationElements K) (jde : K), re.useICRF = false →
      axisRotationAngle pi re jde corr
          = norm360 (re.offset + 360 * (jde - re.epoch) / re.period) ∧
        0 ≤ axisRotationAngle pi re jde corr ∧
        axisRotationAngle pi re jde corr < 360) ∧
    (∀ pi corr : K, axisRotationAngle pi scenarioRE (2451545 + 12) corr = 180) := by
  constructor
  · intro pi corr re jde h
    unfold axisRotationAngle
    rw [h]
    simp only [Bool.false_eq_true, if_false]
    exact ⟨trivial, norm360_nonneg _, norm360_lt _⟩
  · intro pi corr
    have hval : axisRotationAngle pi (scenarioRE (K := K)) (2451545 + 12) corr
        = norm360 ((0:K) + 360 * ((2451545 + 12) - 2451545) / 24) := by
      simp [axisRotationAngle, scenarioRE, RotationElements.default]
    rw [hval]
    have harg : (0:K) + 360 * ((2451545 + 12) - 2451545) / 24 = 180 := by
      norm_num
    rw [harg]
    exact norm360_eq_self 180 (by norm_num) (by norm_num)

/-- Witness for claim C3 at the concrete scenario body: the first
conjunct at `pi = 3`, `corr = 0`, `jde = 5`, the second at `pi = 3`,
`corr = 0`. -/
theorem claim_C3_witness :
    (axisRotationAngle (3:ℚ) scenarioRE 5 0
        = norm360 (scenarioRE.offset + 360 * (5 - scenarioRE.epoch) / scenarioRE.period) ∧
      0 ≤ axisRotationAngle (3:ℚ) scenarioRE 5 0 ∧
      axisRotationAngle (3:ℚ) scenarioRE 5 0 < 360) ∧
    axisRotationAngle (3:ℚ) scenarioRE (2451545 + 12) 0 = 180 :=
  ⟨claim_C3_axisRotationLegacy.1 3 0 scenarioRE 5 rfl,
   claim_C3_axisRotationLegacy.2 3 0⟩

/-- Claim C4: for every body with `useICRF = false` and every time JDE,
the axis rotation angle at `JDE + period` is congruent modulo 360 degrees
to the axis rotation angle at `JDE`. -/
theorem claim_C4_periodicity (pi corr : K) (re : RotationElements K) (jde : K)
    (h : re.useICRF = false) :
    ∃ k : ℤ, axisRotationAngle pi re (jde + re.period) corr
        - axisRotationAngle pi re jde corr = 360 * (k : K) := by
  refine ⟨0, ?_⟩
  unfold axisRotationAngle
  rw [h]
  simp only [Bool.false_eq_true, if_false]
  by_cases hp : re.period = 0
  · have h0 : jde + re.period = jde := by
      rw [hp]
      exact add_zero jde
    rw [h0]
    push_cast
    ring
  · have harg : re.offset + 360 * (jde + re.period - re.epoch) / re.period
        = (re.offset + 360 * (jde - re.epoch) / re.period) + 360 := by
      field_simp
      ring
    rw [harg, norm360_add_360]
    push_cast
    ring

/-- Witness for claim C4 at the concrete scenario body (`period = 24`,
`useICRF = false`), `pi = 3`, `corr = 0`, `jde = 0`. -/
theorem claim_C4_witness :
    ∃ k : ℤ, axisRotationAngle (3:ℚ) scenarioRE (0 + scenarioRE.period) 0
        - axisRotationAngle (3:ℚ) scenarioRE 0 0 = 360 * (k : ℚ) :=
  claim_C4_periodicity 3 0 scenarioRE 0 rfl

/-- Claim C5: for every Planet and observer heliocentric position,
`getPhase` returns the illuminated fraction `(1 + cos(phaseAngle))/2` and
this value lies in [0, 1]; `getPhaseAngle` and `getElongation` return
angles in radians in [0, π]. Stated over ℝ with the real `cos`, `arccos`
and `sqrt`. -/
theorem claim_C5_phaseBounds (obsPos helioPos : Vec3 ℝ) :
    getPhase Real.cos Real.arccos Real.sqrt obsPos helioPos
        = (1 + Real.cos (getPhaseAngle Real.arccos Real.sqrt obsPos helioPos)) / 2 ∧
    0 ≤ getPhase Real.cos Real.arccos Real.sqrt obsPos helioPos ∧
    getPhase Real.cos Real.arccos Real.sqrt obsPos helioPos ≤ 1 ∧
    0 ≤ getPhaseAngle Real.arccos Real.sqrt obsPos helioPos ∧
    getPhaseAngle Real.arccos Real.sqrt obsPos helioPos ≤ Real.pi ∧
    0 ≤ getElongation Real.arccos Real.sqrt obsPos helioPos ∧
    getElongation Real.arccos Real.sqrt obsPos helioPos ≤ Real.pi := by
  have hdef : getPhase Real.cos Real.arccos Real.sqrt obsPos helioPos
      = (1 + Real.cos (getPhaseAngle Real.arccos Real.sqrt obsPos helioPos)) / 2 := rfl
  have hc1 := Real.neg_one_le_cos (getPhaseAngle Real.arccos Real.sqrt obsPos helioPos)
  have hc2 := Real.cos_le_one (getPhaseAngle Real.arccos Real.sqrt obsPos helioPos)
  refine ⟨hdef, ?_, ?_, Real.arccos_nonneg _, Real.arccos_le_pi _,
    Real.arccos_nonneg _, Real.arccos_le_pi _⟩
  · rw [hdef]
    linarith
  · rw [hdef]
    linarith

/-- Counterexample to claim C6 as stated: the magnitude returned for a
semi-major axis `a = 2 > 1` can equal the sentinel value 100 — with
absolute magnitude `V(1,0) = 100 − 5·log10 2` the formula
`V(1,0) + 5·log10(a·(a−1))` evaluates to exactly 100, so the result for
`a > 1` is not always distinguishable from the sentinel. -/
theorem claim_C6_counterexample :
    (1:ℝ) < 2 ∧
    getMeanOppositionMagnitude (Real.logb 10) (100 - 5 * Real.logb 10 2) 2 = 100 := by
  constructor
  · norm_num
  · unfold getMeanOppositionMagnitude
    rw [if_neg (by norm_num : ¬ (2:ℝ) ≤ 1)]
    norm_num

/-- Claim C6 (amended): `getMeanOppositionMagnitude` returns exactly the
sentinel value 100 when the semi-major axis `a` is at most 1 AU, and for
every `a > 1` returns the formula value `V(1,0) + 5·log10(a·(a−1))` — a
well-defined value produced without any exception or failure (though it
may coincidentally equal 100 for particular inputs). -/
theorem claim_C6_sentinel (log10 : K → K) (absoluteMagnitude a : K) :
    (a ≤ 1 → getMeanOppositionMagnitude log10 absoluteMagnitude a = 100) ∧
    (1 < a → getMeanOppositionMagnitude log10 absoluteMagnitude a
        = absoluteMagnitude + 5 * log10 (a * (a - 1))) := by
  constructor
  · intro h
    simp [getMeanOppositionMagnitude, h]
  · intro h
    simp [getMeanOppositionMagnitude, not_le.mpr h]

/-- Witness for claim C6 (amended) at concrete inputs: `a = 1/2 ≤ 1`
gives the sentinel, `a = 2 > 1` gives the formula value. -/
theorem claim_C6_witness :
    getMeanOppositionMagnitude (fun _ : ℚ => 0) 7 (1/2) = 100 ∧
    getMeanOppositionMagnitude (fun _ : ℚ => 0) 7 2 = 7 + 5 * 0 :=
  ⟨(claim_C6_sentinel (fun _ : ℚ => 0) 7 (1/2)).1 (by norm_num),
   (claim_C6_sentinel (fun _ : ℚ => 0) 7 2).2 (by norm_num)⟩

/-- Claim C7: `getHeliocentricEclipticPos` equals the sum of `eclipticPos`
over the body and all its ancestors up to the root; a root body returns
its own `eclipticPos` unchanged; and for the tree Sun(0) → Earth(1,0,0) →
Moon(0,0.0026,0) the Moon's heliocentric position is (1, 0.0026, 0). -/
theorem claim_C7_heliocentric :
    (∀ c : BodyChain K, getHeliocentricEclipticPos c = vsum (chainPositions c)) ∧
    (∀ p : Vec3 K, getHeliocentricEclipticPos (BodyChain.root p) = p) ∧
    getHeliocentricEclipticPos (moonChain (K := K)) = ⟨1, 0.0026, 0⟩ := by
  refine ⟨?_, ?_, ?_⟩
  · intro c
    induction c with
    | root p =>
      simp [getHeliocentricEclipticPos, chainPositions, vsum, Vec3.add_zero3]
    | sat p parent ih =>
      simp [getHeliocentricEclipticPos, chainPositions, vsum, ih]
  · intro p
    rfl
  · show (⟨0, 0.0026, 0⟩ : Vec3 K) + ((⟨1, 0, 0⟩ : Vec3 K) + (⟨0, 0, 0⟩ : Vec3 K))
        = (⟨1, 0.0026, 0⟩ : Vec3 K)
    simp [Vec3.add_def]

/-- Claim C8: for every correction family and time T, a repeated lookup
at an unchanged T returns an identical snapshot, leaves the cache
unchanged and performs no recomputation; the series is recomputed exactly
when the requested JDE differs from the family's cached JDE stamp. -/
theorem claim_C8_correctionsCache :
    (∀ (D : Type) (compute : CorrFamily → K → D) (pc : PlanetCorrections K D)
        (fam : CorrFamily) (T : K),
      getCorrections compute (getCorrections compute pc fam T).1 fam T
        = ((getCorrections compute pc fam T).1,
           (getCorrections compute pc fam T).2.1, 0)) ∧
    (∀ (D : Type) (compute : CorrFamily → K → D) (pc : PlanetCorrections K D)
        (fam : CorrFamily) (jde : K), stampOf pc fam = jde →
      getCorrections compute pc fam jde = (pc, dataOf pc fam, 0)) ∧
    (∀ (D : Type) (compute : CorrFamily → K → D) (pc : PlanetCorrections K D)
        (fam : CorrFamily) (jde : K), stampOf pc fam ≠ jde →
      getCorrections compute pc fam jde
        = (setFamily pc fam jde (compute fam jde), compute fam jde, 1)) := by
  refine ⟨?_, ?_, ?_⟩
  · intro D compute pc fam T
    by_cases h : stampOf pc fam = T
    · simp [getCorrections, h]
    · simp [getCorrections, h, stampOf_setFamily, dataOf_setFamily]
  · intro D compute pc fam jde h
    simp [getCorrections, h]
  · intro D compute pc fam jde h
    simp [getCorrections, h]

/-- A concrete corrections cache over ℚ: all stamps 0, all snapshots 5. -/
def pcSample : PlanetCorrections ℚ ℚ := ⟨0, 0, 0, 0, 0, 5, 5, 5, 5, 5⟩

/-- Witness for claim C8 at a concrete cache: a repeated lookup at T = 7,
a cache hit at the stamped time 0, and a recomputing miss at time 1. -/
theorem claim_C8_witness :
    (getCorrections (fun _ t => t + 1) (getCorrections (fun _ t => t + 1) pcSample CorrFamily.earth 7).1 CorrFamily.earth 7
      = ((getCorrections (fun _ t => t + 1) pcSample CorrFamily.earth 7).1,
         (getCorrections (fun _ t => t + 1) pcSample CorrFamily.earth 7).2.1, 0)) ∧
    (getCorrections (fun _ t => t + 1) pcSample CorrFamily.earth 0
      = (pcSample, 5, 0)) ∧
    (getCorrections (fun _ t => t + 1) pcSample CorrFamily.earth 1
      = (setFamily pcSample CorrFamily.earth 1 ((1:ℚ) + 1), (1:ℚ) + 1, 1)) :=
  ⟨claim_C8_correctionsCache.1 ℚ (fun _ t => t + 1) pcSample CorrFamily.earth 7,
   claim_C8_correctionsCache.2.1 ℚ (fun _ t => t + 1) pcSample CorrFamily.earth 0 rfl,
   claim_C8_correctionsCache.2.2 ℚ (fun _ t => t + 1) pcSample CorrFamily.earth 1
     (by norm_num [pcSample, stampOf])⟩

/-- Claim C9: `computePosition(dateJDE)` is a no-op when `dateJDE` equals
the cached `lastJDE` — `eclipticPos`, `eclipticVelocity` and `lastJDE`
are unchanged and the provider is not invoked; when it differs, the
provider is invoked once, its result is stored and `lastJDE` becomes
`dateJDE`. -/
theorem claim_C9_positionCache (coordFunc : K → Vec3 K × Vec3 K)
    (st : PositionState K) (dateJDE : K) :
    (dateJDE = st.lastJDE → computePosition coordFunc st dateJDE = (st, 0)) ∧
    (dateJDE ≠ st.lastJDE → computePosition coordFunc st dateJDE
        = ({ eclipticPos := (coordFunc dateJDE).1,
             eclipticVelocity := (coordFunc dateJDE).2,
             lastJDE := dateJDE }, 1)) := by
  constructor
  · intro h
    simp [computePosition, h]
  · intro h
    simp [computePosition, h]

/-- A concrete position cache over ℚ, stamped at `lastJDE = 10`. -/
def stSample : PositionState ℚ := ⟨⟨1, 0, 0⟩, ⟨0, 0, 0⟩, 10⟩

/-- A concrete orbit position provider over ℚ. -/
def coordSample : ℚ → Vec3 ℚ × Vec3 ℚ := fun t => (⟨t, 0, 0⟩, ⟨1, 0, 0⟩)

/-- Witness for claim C9 at the concrete cache: a hit at the cached
time 10 and a miss at time 11. -/
theorem claim_C9_witness :
    computePosition coordSample stSample 10 = (stSample, 0) ∧
    computePosition coordSample stSample 11
      = ({ eclipticPos := (coordSample 11).1,
           eclipticVelocity := (coordSample 11).2,
           lastJDE := 11 }, 1) :=
  ⟨(claim_C9_positionCache coordSample stSample 10).1 rfl,
   (claim_C9_positionCache coordSample stSample 11).2 (by norm_num [stSample])⟩

/-- Claim C2: when `useICRF` is true the ICRF model is authoritative and
`period`/`offset` are outputs derived from `W1`/`W0`: the loader sets
`useICRF`, stores `W0` (in degrees) into `offset` and derives `period`
from `W1` (so that `period·W1 = 2π`); `getSiderealDay` is then determined
by `W1` alone; and the axis rotation angle of a `useICRF = true` body is
invariant under arbitrary changes of `period` and `offset`, i.e. no
computation treats them as authoritative inputs. -/
theorem claim_C2_icrfAuthoritative :
    (∀ pi W0deg W1deg ra0 ra1 de0 de1 epoch obl node sp : K,
      (loadICRFElements pi W0deg W1deg ra0 ra1 de0 de1 epoch obl node sp).useICRF = true ∧
      (loadICRFElements pi W0deg W1deg ra0 ra1 de0 de1 epoch obl node sp).offset * (pi / 180)
          = (loadICRFElements pi W0deg W1deg ra0 ra1 de0 de1 epoch obl node sp).W0 ∧
      (W1deg ≠ 0 →
        (loadICRFElements pi W0deg W1deg ra0 ra1 de0 de1 epoch obl node sp).period
            * (loadICRFElements pi W0deg W1deg ra0 ra1 de0 de1 epoch obl node sp).W1
          = 2 * pi)) ∧
    (∀ (pi : K) (re : RotationElements K), re.W1 ≠ 0 →
      getSiderealDay pi re = 2 * pi / re.W1) ∧
    (∀ (pi corr jde p o : K) (re : RotationElements K), re.useICRF = true →
      axisRotationAngle pi { re with period := p, offset := o } jde corr
        = axisRotationAngle pi re jde corr) := by
  refine ⟨?_, ?_, ?_⟩
  · intro pi W0deg W1deg ra0 ra1 de0 de1 epoch obl node sp
    refine ⟨rfl, rfl, ?_⟩
    intro h
    show 360 / W1deg * (W1deg * (pi / 180)) = 2 * pi
    field_simp
    ring
  · intro pi re h
    simp [getSiderealDay, h]
  · intro pi corr jde p o re h
    simp [axisRotationAngle, h]

/-- Witness for claim C2 at concrete inputs: the loader at
`pi = 3`, `W0 = 90` deg, `W1 = 360` deg/day, and the invariance of
`getSiderealDay` and of the axis rotation angle for the concrete ICRF
body `sampleW1RE` under a change of `period`/`offset`. -/
theorem claim_C2_witness :
    ((loadICRFElements (3:ℚ) 90 360 0 0 0 0 0 0 0 0).period
        * (loadICRFElements (3:ℚ) 90 360 0 0 0 0 0 0 0 0).W1 = 2 * 3) ∧
    getSiderealDay (3:ℚ) sampleW1RE = 2 * 3 / sampleW1RE.W1 ∧
    axisRotationAngle (3:ℚ) { sampleW1RE with period := 7, offset := 8 } 5 0
      = axisRotationAngle (3:ℚ) sampleW1RE 5 0 :=
  ⟨(claim_C2_icrfAuthoritative.1 3 90 360 0 0 0 0 0 0 0 0).2.2 (by norm_num),
   claim_C2_icrfAuthoritative.2.1 3 sampleW1RE
     (by norm_num [sampleW1RE, RotationElements.default]),
   claim_C2_icrfAuthoritative.2.2 3 0 5 7 8 sampleW1RE rfl⟩
